import Mathlib

/-!
Shallow embedding of the kabu_per_bot signal / metrics / cooldown /
notification / pipeline core (src/kabu_per_bot/{signal,metrics,
notification,pipeline}.py and storage/firestore_schema.py).

Modelling conventions:
* Python floats are modelled by ℚ (all arithmetic in the embedded code is
  field arithmetic; binary-float rounding is not modelled).
* ISO trade-date strings are modelled by their proleptic-Gregorian ordinal
  (Python date.toordinal) as an ℤ; date.fromisoformat/isoformat round-trip,
  so normalize_trade_date is the identity on this representation, and
  date.weekday() is (ordinal - 1) mod 7 with Monday = 0.
* ISO datetime strings (now_iso, sent_at) are modelled by epoch seconds
  as an ℤ; datetime comparison is integer comparison and
  timedelta(hours=h) is 3600 * h seconds.
* Python raise/ValueError is modelled with Except String.
* str.strip/upper are modelled by py_strip/py_upper below (ASCII).
-/

/-- Equality on Except results is decidable component-wise. -/
instance {e a : Type} [DecidableEq e] [DecidableEq a] : DecidableEq (Except e a) := fun x y =>
  match x, y with
  | .ok v, .ok w =>
      if h : v = w then .isTrue (by rw [h]) else .isFalse (fun hh => by cases hh; exact h rfl)
  | .error v, .error w =>
      if h : v = w then .isTrue (by rw [h]) else .isFalse (fun hh => by cases hh; exact h rfl)
  | .ok _, .error _ => .isFalse (fun hh => by cases hh)
  | .error _, .ok _ => .isFalse (fun hh => by cases hh)

/-- Python str.strip(): drop leading and trailing whitespace. -/
def py_strip (s : String) : String :=
  ⟨((s.toList.dropWhile Char.isWhitespace).reverse.dropWhile Char.isWhitespace).reverse⟩

/-- Python str.upper() (ASCII letters). -/
def py_upper (s : String) : String :=
  ⟨s.toList.map Char.toUpper⟩

/-- firestore_schema.TICKER_PATTERN: `^\d{4}:[A-Z]+$` (ASCII), checked on the
trimmed upper-cased ticker. -/
def ticker_pattern_ok (s : String) : Bool :=
  match s.toList with
  | a :: b :: c :: d :: e :: rest =>
      a.isDigit && b.isDigit && c.isDigit && d.isDigit && e == ':' &&
        !rest.isEmpty && rest.all (fun ch => decide ('A' ≤ ch) && decide (ch ≤ 'Z'))
  | _ => false

/-- firestore_schema.normalize_ticker: strip + upper, then the ticker
pattern must match, else ValueError. -/
def normalize_ticker (t : String) : Except String String :=
  let normalized := py_upper (py_strip t)
  if ticker_pattern_ok normalized then Except.ok normalized
  else Except.error ("Invalid ticker format: " ++ t)

/-- watchlist.MetricType. -/
inductive MetricType
  | PER
  | PSR
deriving DecidableEq

/-- MetricType.value (the enum's string value). -/
def MetricType.value : MetricType → String
  | .PER => "PER"
  | .PSR => "PSR"

/-- watchlist.NotifyChannel. -/
inductive NotifyChannel
  | DISCORD
  | LINE
  | BOTH
  | OFF
deriving DecidableEq

/-- watchlist.NotifyTiming. -/
inductive NotifyTiming
  | IMMEDIATE
  | AT_21
  | OFF
deriving DecidableEq

/-- pipeline.NotificationExecutionMode. -/
inductive NotificationExecutionMode
  | ALL
  | DAILY
  | AT_21
deriving DecidableEq

/-- metrics.MetricMedians (trade_date as day ordinal; calculated_at kept as
the caller-supplied value, the wall-clock default is not modelled). -/
structure MetricMedians where
  ticker : String
  trade_date : ℤ
  median_1w : Option ℚ
  median_3m : Option ℚ
  median_1y : Option ℚ
  source_metric_type : MetricType
  calculated_at : Option String
deriving DecidableEq

/-- signal.SignalEvaluation. -/
structure SignalEvaluation where
  ticker : String
  trade_date : ℤ
  metric_type : MetricType
  metric_value : Option ℚ
  under_1w : Bool
  under_3m : Bool
  under_1y : Bool
  combo : Option String
  is_strong : Bool
  category : Option String
deriving DecidableEq

/-- SignalEvaluation.has_signal. -/
def SignalEvaluation.has_signal (e : SignalEvaluation) : Bool :=
  e.category.isSome

/-- signal.SignalState (updated_at kept as the caller-supplied value). -/
structure SignalState where
  ticker : String
  trade_date : ℤ
  metric_type : MetricType
  metric_value : Option ℚ
  under_1w : Bool
  under_3m : Bool
  under_1y : Bool
  combo : Option String
  is_strong : Bool
  category : Option String
  streak_days : ℤ
  updated_at : Option String
deriving DecidableEq

/-- signal.NotificationLogEntry (sent_at as epoch seconds). -/
structure NotificationLogEntry where
  entry_id : String
  ticker : String
  category : String
  condition_key : String
  sent_at : ℤ
  channel : String
  payload_hash : String
  is_strong : Bool
deriving DecidableEq

/-- signal.CooldownDecision. -/
structure CooldownDecision where
  should_send : Bool
  reason : String
deriving DecidableEq

/-- The `x is not None and value < x` pattern of evaluate_signal's under
flags. -/
def under_median (v : ℚ) : Option ℚ → Bool
  | none => false
  | some m => decide (v < m)

/-- The combo/category priority chain of evaluate_signal (first match wins);
returns (combo, category). -/
def signal_combo_category (metric_type : MetricType) (u1w u3m u1y strong : Bool) :
    Option String × Option String :=
  if strong then
    (some "1Y+3M+1W", some (if metric_type = .PER then "超PER割安" else "超PSR割安"))
  else if u1y && u3m then
    (some "1Y+3M", some (if metric_type = .PER then "PER割安" else "PSR割安"))
  else if u3m && u1w then
    (some "3M+1W", some (if metric_type = .PER then "PER割安" else "PSR割安"))
  else if u1y && u1w then
    (some "1Y+1W", some (if metric_type = .PER then "PER割安" else "PSR割安"))
  else (none, none)

/-- signal.evaluate_signal. normalize_trade_date is the identity on the
ordinal representation of an already-valid date. -/
def evaluate_signal (ticker : String) (trade_date : ℤ) (metric_type : MetricType)
    (metric_value : Option ℚ) (medians : MetricMedians) :
    Except String SignalEvaluation :=
  match normalize_ticker ticker with
  | .error e => .error e
  | .ok nt =>
    match metric_value with
    | none =>
        .ok { ticker := nt, trade_date := trade_date, metric_type := metric_type
              metric_value := none, under_1w := false, under_3m := false
              under_1y := false, combo := none, is_strong := false, category := none }
    | some v =>
        let u1w := under_median v medians.median_1w
        let u3m := under_median v medians.median_3m
        let u1y := under_median v medians.median_1y
        let strong := u1y && u3m && u1w
        let cc := signal_combo_category metric_type u1w u3m u1y strong
        .ok { ticker := nt, trade_date := trade_date, metric_type := metric_type
              metric_value := some v, under_1w := u1w, under_3m := u3m
              under_1y := u1y, combo := cc.1, is_strong := strong, category := cc.2 }

/-- signal.SignalEvaluation.condition_key. -/
def SignalEvaluation.condition_key (e : SignalEvaluation) : Option String :=
  match e.combo with
  | none => none
  | some c => some (e.metric_type.value ++ ":" ++ c)

/-- signal._is_same_signal. -/
def is_same_signal (previous : SignalState) (current : SignalEvaluation) : Bool :=
  if previous.category ≠ current.category then false
  else if previous.combo ≠ current.combo then false
  else if previous.is_strong ≠ current.is_strong then false
  else true

/-- date.weekday() on the ordinal representation: Monday = 0 … Sunday = 6
(ordinal 1 is 0001-01-01, a Monday). -/
def weekday (d : ℤ) : ℤ :=
  (d - 1) % 7

/-- signal._is_previous_business_day. The Python while-loop decrements
`expected` while its weekday is Saturday/Sunday; starting from
`current - 1` it runs at most twice (the weekend days are consecutive),
so two unrolled steps implement it exactly. -/
def is_previous_business_day (previous_trade_date current_trade_date : ℤ) : Bool :=
  let e0 := current_trade_date - 1
  let e1 := if 5 ≤ weekday e0 then e0 - 1 else e0
  let e2 := if 5 ≤ weekday e1 then e1 - 1 else e1
  decide (previous_trade_date = e2)

/-- signal.build_signal_state (updated_at kept as the caller-supplied value;
the wall-clock default is not modelled). -/
def build_signal_state (evaluation : SignalEvaluation)
    (previous_state : Option SignalState) (updated_at : Option String) :
    SignalState :=
  let streak_days : ℤ :=
    if evaluation.has_signal then
      match previous_state with
      | some prev =>
          if is_same_signal prev evaluation &&
              is_previous_business_day prev.trade_date evaluation.trade_date then
            prev.streak_days + 1
          else 1
      | none => 1
    else 0
  { ticker := evaluation.ticker
    trade_date := evaluation.trade_date
    metric_type := evaluation.metric_type
    metric_value := evaluation.metric_value
    under_1w := evaluation.under_1w
    under_3m := evaluation.under_3m
    under_1y := evaluation.under_1y
    combo := evaluation.combo
    is_strong := evaluation.is_strong
    category := evaluation.category
    streak_days := streak_days
    updated_at := updated_at }

/-- signal._metric_prefix: `condition_key.split(":", 1)[0]`, i.e. the part
of the string before the first colon. -/
def metric_head (condition_key : String) : String :=
  ⟨condition_key.toList.takeWhile (fun c => c ≠ ':')⟩

/-- signal._is_recent: sent_at >= threshold (epoch seconds). -/
def is_recent (sent_at threshold : ℤ) : Bool :=
  decide (threshold ≤ sent_at)

/-- Predicate of the primary cooldown loop: entry matches the candidate's
ticker, category and condition_key and was sent within the window. -/
def blocks_candidate (nt category condition_key : String) (threshold : ℤ)
    (e : NotificationLogEntry) : Bool :=
  decide (e.ticker = nt) && decide (e.category = category) &&
    decide (e.condition_key = condition_key) && is_recent e.sent_at threshold

/-- Predicate of the escalation loop: a non-strong entry for the same
ticker whose condition_key has the same metric-type head, sent within the
window. -/
def escalates_candidate (nt head : String) (threshold : ℤ)
    (e : NotificationLogEntry) : Bool :=
  decide (e.ticker = nt) && !e.is_strong &&
    decide (metric_head e.condition_key = head) && is_recent e.sent_at threshold

/-- signal.evaluate_cooldown. Each Python for-loop returns on the first
entry satisfying its predicate and otherwise falls through, which is
extensionally List.any of that predicate. now/sent_at are epoch seconds,
timedelta(hours=h) is 3600*h. -/
def evaluate_cooldown (now : ℤ) (cooldown_hours : ℤ)
    (candidate_ticker candidate_category candidate_condition_key : String)
    (candidate_is_strong : Bool) (recent_entries : List NotificationLogEntry) :
    Except String CooldownDecision :=
  if cooldown_hours ≤ 0 then .error "cooldown_hours must be > 0"
  else
    let threshold := now - 3600 * cooldown_hours
    match normalize_ticker candidate_ticker with
    | .error e => .error e
    | .ok nt =>
      if recent_entries.any
          (blocks_candidate nt candidate_category candidate_condition_key threshold) then
        .ok { should_send := false, reason := "2時間クールダウン中" }
      else if candidate_is_strong &&
          recent_entries.any
            (escalates_candidate nt (metric_head candidate_condition_key) threshold) then
        .ok { should_send := true, reason := "通常→強遷移のため即時通知" }
      else
        .ok { should_send := true, reason := "送信可" }

/-- market_data.MarketDataSnapshot. -/
structure MarketDataSnapshot where
  ticker : String
  close_price : Option ℚ
  eps_forecast : Option ℚ
  sales_forecast : Option ℚ
  market_cap : Option ℚ
  earnings_date : Option String
  source : String
  fetched_at : String
deriving DecidableEq

/-- metrics.DailyMetric (trade_date as day ordinal). -/
structure DailyMetric where
  ticker : String
  trade_date : ℤ
  close_price : Option ℚ
  eps_forecast : Option ℚ
  sales_forecast : Option ℚ
  per_value : Option ℚ
  psr_value : Option ℚ
  data_source : String
  fetched_at : String
deriving DecidableEq

/-- metrics.DailyMetric.missing_fields. The Python conditions
`x is None or x <= 0` are the `none`/`some e, e ≤ 0` matches. -/
def DailyMetric.missing_fields (m : DailyMetric) (metric_type : MetricType) :
    List String :=
  (if m.close_price = none then ["close_price"] else []) ++
  (if metric_type = .PER &&
      (match m.eps_forecast with
       | none => true
       | some e => decide (e ≤ 0)) then ["eps_forecast"] else []) ++
  (if metric_type = .PSR &&
      (match m.sales_forecast with
       | none => true
       | some s => decide (s ≤ 0)) then ["sales_forecast"] else [])

/-- metrics.build_daily_metric. The metric_type guard of the source can
never fire here: MetricType has exactly the members PER and PSR. -/
def build_daily_metric (ticker : String) (trade_date : ℤ)
    (metric_type : MetricType) (snapshot : MarketDataSnapshot) :
    Except String DailyMetric :=
  match normalize_ticker ticker with
  | .error e => .error e
  | .ok nt =>
    let per_value : Option ℚ :=
      match snapshot.close_price with
      | none => none
      | some c =>
        match snapshot.eps_forecast with
        | none => none
        | some e => if 0 < e then some (c / e) else none
    let psr_value : Option ℚ :=
      match snapshot.close_price with
      | none => none
      | some c =>
        match snapshot.sales_forecast with
        | none => none
        | some s =>
          if 0 < s then
            match snapshot.market_cap with
            | some mc => if 0 < mc then some (mc / s) else some (c / s)
            | none => some (c / s)
          else none
    .ok { ticker := nt, trade_date := trade_date
          close_price := snapshot.close_price
          eps_forecast := snapshot.eps_forecast
          sales_forecast := snapshot.sales_forecast
          per_value := per_value, psr_value := psr_value
          data_source := snapshot.source, fetched_at := snapshot.fetched_at }

/-- statistics.median on a list of rationals: sort ascending, middle
element for odd length, mean of the two middle elements for even length.
statistics.median raises on an empty list; _window_median only calls it
with at least one value, so the (unreachable there) getD default is 0. -/
def py_statistics_median (values : List ℚ) : ℚ :=
  let s := List.insertionSort (· ≤ ·) values
  let n := s.length
  if n % 2 = 1 then s.getD (n / 2) 0
  else (s.getD (n / 2 - 1) 0 + s.getD (n / 2) 0) / 2

/-- metrics._window_median. -/
def window_median (values : List ℚ) (window_size : ℤ) :
    Except String (Option ℚ) :=
  if window_size ≤ 0 then .error "window_size must be > 0."
  else if decide ((values.length : ℤ) < window_size) then .ok none
  else .ok (some (py_statistics_median (values.take window_size.toNat)))

/-- metrics.MetricMedians built by calculate_metric_medians; the values
list keeps the metric of the chosen type of each row, Nones skipped, in
order (a filterMap). -/
def metric_values_of (metric_type : MetricType) (latest_first_metrics : List DailyMetric) :
    List ℚ :=
  latest_first_metrics.filterMap
    (fun m => if metric_type = .PER then m.per_value else m.psr_value)

/-- metrics.calculate_metric_medians. The window-order ValueError fires
after ticker/date normalization and before any median is computed; the
three _window_median calls are evaluated 1w first. -/
def calculate_metric_medians (ticker : String) (trade_date : ℤ)
    (metric_type : MetricType) (latest_first_metrics : List DailyMetric)
    (window_1w_days window_3m_days window_1y_days : ℤ)
    (calculated_at : Option String) : Except String MetricMedians :=
  match normalize_ticker ticker with
  | .error e => .error e
  | .ok nt =>
    if ¬ (window_1w_days ≤ window_3m_days ∧ window_3m_days ≤ window_1y_days) then
      .error "window order must satisfy 1W <= 3M <= 1Y."
    else
      let values := metric_values_of metric_type latest_first_metrics
      match window_median values window_1w_days with
      | .error e => .error e
      | .ok m1w =>
        match window_median values window_3m_days with
        | .error e => .error e
        | .ok m3m =>
          match window_median values window_1y_days with
          | .error e => .error e
          | .ok m1y =>
            .ok { ticker := nt, trade_date := trade_date
                  median_1w := m1w, median_3m := m3m, median_1y := m1y
                  source_metric_type := metric_type
                  calculated_at := calculated_at }

/-- notification.NotificationMessage (payload_hash — sha1 of the body — is
applied at the point of use in the pipeline via an abstract hash
function). -/
structure NotificationMessage where
  ticker : String
  category : String
  condition_key : String
  body : String
  is_strong : Bool
deriving DecidableEq

/-- Round half to even to an integer (the rounding used by Python's
fixed-point formatting, modelled exactly on ℚ). -/
def round_half_even (x : ℚ) : ℤ :=
  let fl := ⌊x⌋
  let fr := x - fl
  if fr < 1/2 then fl
  else if 1/2 < fr then fl + 1
  else if fl % 2 = 0 then fl else fl + 1

/-- Two-digit zero-padded decimal. -/
def pad2 (n : ℕ) : String :=
  if n < 10 then "0" ++ toString n else toString n

/-- notification._fmt: None renders as N/A, a number with two decimal
places (Python formats the binary double; modelled as exact half-even
rounding of the rational at two decimals). -/
def fmt_value : Option ℚ → String
  | none => "N/A"
  | some v =>
    let n := round_half_even (v * 100)
    let a := n.natAbs
    (if n < 0 then "-" else "") ++ toString (a / 100) ++ "." ++ pad2 (a % 100)

/-- notification.format_signal_message. `not state.category or not
state.combo` is Python falsiness: None or the empty string. -/
def format_signal_message (ticker company_name : String) (state : SignalState)
    (metric_value median_1w median_3m median_1y : Option ℚ) :
    Except String NotificationMessage :=
  if state.category.getD "" = "" ∨ state.combo.getD "" = "" then
    .error "signal category/combo is required for signal notifications"
  else
    match normalize_ticker ticker with
    | .error e => .error e
    | .ok nt =>
      .ok { ticker := nt
            category := state.category.getD ""
            condition_key := state.metric_type.value ++ ":" ++ state.combo.getD ""
            body := "【" ++ state.category.getD "" ++ "】\n" ++
              company_name ++ " (" ++ nt ++ ")\n" ++
              state.metric_type.value ++ ": " ++ fmt_value metric_value ++ "\n" ++
              "中央値(1W/3M/1Y): " ++ fmt_value median_1w ++ " / " ++
              fmt_value median_3m ++ " / " ++ fmt_value median_1y ++ "\n" ++
              "判定: " ++ state.combo.getD "" ++ "\n" ++
              "連続: " ++ toString state.streak_days ++ "日"
            is_strong := state.is_strong }

/-- Code-point comparison of strings through their character lists (the
order Python's sorted() uses on str); the List Char order is
lexicographic on code points. -/
def str_le (a b : String) : Prop :=
  a.toList ≤ b.toList

instance : DecidableRel str_le := fun a b =>
  inferInstanceAs (Decidable (a.toList ≤ b.toList))

instance : IsTotal String str_le :=
  ⟨fun a b => le_total a.toList b.toList⟩

instance : IsTrans String str_le :=
  ⟨fun _ _ _ hab hbc => le_trans hab hbc⟩

instance : IsAntisymm String str_le :=
  ⟨fun a b hab hba => by
    cases a; cases b
    exact congrArg String.mk (le_antisymm hab hba)⟩

/-- Python sorted() on strings. -/
def py_sorted_strings (l : List String) : List String :=
  List.insertionSort str_le l

/-- Python sep.join(l). -/
def py_join (sep : String) : List String → String
  | [] => ""
  | [x] => x
  | x :: y :: xs => x ++ sep ++ py_join sep (y :: xs)

/-- The `sorted({field.strip() for field in missing_fields if
field.strip()})` expression of format_data_unknown_message: strip every
name, drop the falsy (empty) ones, deduplicate (a set), sort
ascending. -/
def stripped_field_set (missing_fields : List String) : List String :=
  py_sorted_strings ((missing_fields.map py_strip).filter (fun s => s ≠ "")).dedup

/-- notification.format_data_unknown_message. -/
def format_data_unknown_message (ticker company_name : String)
    (missing_fields : List String) (context : String) :
    Except String NotificationMessage :=
  match normalize_ticker ticker with
  | .error e => .error e
  | .ok nt =>
    let sorted_fields :=
      let s := stripped_field_set missing_fields
      if s = [] then ["unknown"] else s
    .ok { ticker := nt
          category := "データ不明"
          condition_key := "UNKNOWN:" ++ py_join "," sorted_fields
          body := "【データ不明】\n" ++ company_name ++ " (" ++ nt ++ ")\n" ++
            "欠損項目: " ++ py_join ", " sorted_fields ++ "\n" ++
            "処理: " ++ context
          is_strong := false }

/-- notification.format_earnings_message (earnings_date kept as a string
here: it is only interpolated). -/
def format_earnings_message (ticker company_name : String)
    (earnings_date : String) (earnings_time : Option String)
    (category : String) : Except String NotificationMessage :=
  if category ≠ "今週決算" ∧ category ≠ "明日決算" then
    .error ("unsupported earnings category: " ++ category)
  else
    match normalize_ticker ticker with
    | .error e => .error e
    | .ok nt =>
      let time_label := match earnings_time with
        | none => "未定"
        | some t => if t = "" then "未定" else t
      .ok { ticker := nt
            category := category
            condition_key := "EARNINGS:" ++ earnings_date
            body := "【" ++ category ++ "】\n" ++ company_name ++ " (" ++ nt ++ ")\n" ++
              "決算予定: " ++ earnings_date ++ " " ++ time_label
            is_strong := false }

/-- watchlist.WatchlistItem (fields the daily pipeline reads). -/
structure WatchlistItem where
  ticker : String
  name : String
  metric_type : MetricType
  notify_channel : NotifyChannel
  notify_timing : NotifyTiming
  ai_enabled : Bool
  is_active : Bool
deriving DecidableEq

/-- pipeline.DailyPipelineConfig (trade_date as day ordinal, now_iso as
epoch seconds; execution_mode kept as the enum — the string-coercion path
of _normalize_execution_mode is identity on enum inputs). -/
structure DailyPipelineConfig where
  trade_date : ℤ
  window_1w_days : ℤ
  window_3m_days : ℤ
  window_1y_days : ℤ
  cooldown_hours : ℤ
  now : ℤ
  channel : String
  execution_mode : NotificationExecutionMode
deriving DecidableEq

/-- pipeline.PipelineResult. -/
structure PipelineResult where
  processed_tickers : ℕ
  sent_notifications : ℕ
  skipped_notifications : ℕ
  errors : ℕ
deriving DecidableEq

/-- PipelineResult.merge. -/
def PipelineResult.merge (a b : PipelineResult) : PipelineResult :=
  { processed_tickers := a.processed_tickers + b.processed_tickers
    sent_notifications := a.sent_notifications + b.sent_notifications
    skipped_notifications := a.skipped_notifications + b.skipped_notifications
    errors := a.errors + b.errors }

/-- The injected collaborators of run_daily_pipeline (market-data source,
repositories over an abstract store state σ, sender, and the sha1
hexdigest as an abstract hash). fetch errors are the recognized
MarketDataError cases, carried as their message. -/
structure PipelineEnv (σ : Type) where
  fetch_snapshot : String → Except String MarketDataSnapshot
  upsert_metric : σ → DailyMetric → σ
  list_recent_metrics : σ → String → ℤ → List DailyMetric
  upsert_medians : σ → MetricMedians → σ
  get_latest_state : σ → String → Option SignalState
  upsert_state : σ → SignalState → σ
  append_log : σ → NotificationLogEntry → σ
  list_recent_log : σ → String → ℕ → List NotificationLogEntry
  send : σ → String → σ
  sha1hex : String → String

/-- pipeline._is_channel_enabled. -/
def is_channel_enabled (item : WatchlistItem) (channel : String) : Bool :=
  let normalized := py_upper (py_strip channel)
  if item.notify_channel = .OFF then false
  else if normalized = "DISCORD" then
    decide (item.notify_channel = .DISCORD ∨ item.notify_channel = .BOTH)
  else if normalized = "LINE" then
    decide (item.notify_channel = .LINE ∨ item.notify_channel = .BOTH)
  else true

/-- pipeline._should_dispatch_for_timing. -/
def should_dispatch_for_timing (notify_timing : NotifyTiming)
    (mode : NotificationExecutionMode) : Bool :=
  if notify_timing = .OFF then false
  else if mode = .ALL then true
  else if mode = .DAILY then decide (notify_timing = .IMMEDIATE)
  else decide (notify_timing = .AT_21)

/-- pipeline._dispatch_with_cooldown: gate through evaluate_cooldown, then
send and append a log entry (entry id and payload hash through the
abstract sha1). Returns (sent, skipped). -/
def dispatch_with_cooldown {σ : Type} (env : PipelineEnv σ)
    (cooldown_hours now : ℤ) (channel : String) (s : σ)
    (message : NotificationMessage) (ticker : String) (is_strong : Bool) :
    σ × Except String (ℕ × ℕ) :=
  let recent := env.list_recent_log s ticker 100
  match evaluate_cooldown now cooldown_hours ticker message.category
      message.condition_key is_strong recent with
  | .error e => (s, .error e)
  | .ok decision =>
    if !decision.should_send then (s, .ok (0, 1))
    else
      let s1 := env.send s message.body
      let entry : NotificationLogEntry :=
        { entry_id := env.sha1hex (message.ticker ++ "|" ++ message.category ++
            "|" ++ message.condition_key ++ "|" ++ channel ++ "|" ++ toString now)
          ticker := message.ticker
          category := message.category
          condition_key := message.condition_key
          sent_at := now
          channel := channel
          payload_hash := env.sha1hex message.body
          is_strong := is_strong }
      let s2 := env.append_log s1 entry
      (s2, .ok (1, 0))

/-- pipeline._process_single_ticker. State updates performed before an
exception escape are kept (they happened in Python before the raise);
an Except.error result is what the caller's try/except catches. -/
def process_single_ticker {σ : Type} (env : PipelineEnv σ)
    (cfg : DailyPipelineConfig) (watch_item : WatchlistItem) (s : σ) :
    σ × Except String PipelineResult :=
  match env.fetch_snapshot watch_item.ticker with
  | .error exc =>
    match format_data_unknown_message watch_item.ticker watch_item.name
        ["market_data_source"] exc with
    | .error e => (s, .error e)
    | .ok unknown_message =>
      match dispatch_with_cooldown env cfg.cooldown_hours cfg.now cfg.channel s
          unknown_message watch_item.ticker false with
      | (s1, .error e) => (s1, .error e)
      | (s1, .ok (sent, skipped)) =>
        (s1, .ok { processed_tickers := 1, sent_notifications := sent
                   skipped_notifications := skipped, errors := 1 })
  | .ok snapshot =>
    match build_daily_metric watch_item.ticker cfg.trade_date
        watch_item.metric_type snapshot with
    | .error e => (s, .error e)
    | .ok metric_row =>
      let s1 := env.upsert_metric s metric_row
      let missing0 := metric_row.missing_fields watch_item.metric_type
      let missing :=
        if (match snapshot.earnings_date with
            | none => true
            | some d => decide (d = "")) then missing0 ++ ["earnings_date"]
        else missing0
      if missing ≠ [] then
        match format_data_unknown_message watch_item.ticker watch_item.name
            missing "日次指標計算" with
        | .error e => (s1, .error e)
        | .ok unknown_message =>
          match dispatch_with_cooldown env cfg.cooldown_hours cfg.now cfg.channel
              s1 unknown_message watch_item.ticker false with
          | (s2, .error e) => (s2, .error e)
          | (s2, .ok (sent, skipped)) =>
            (s2, .ok { processed_tickers := 1, sent_notifications := sent
                       skipped_notifications := skipped, errors := 0 })
      else
        let recent_metrics :=
          env.list_recent_metrics s1 watch_item.ticker cfg.window_1y_days
        match calculate_metric_medians watch_item.ticker cfg.trade_date
            watch_item.metric_type recent_metrics cfg.window_1w_days
            cfg.window_3m_days cfg.window_1y_days none with
        | .error e => (s1, .error e)
        | .ok medians =>
          let s2 := env.upsert_medians s1 medians
          let metric_value :=
            if watch_item.metric_type = .PER then metric_row.per_value
            else metric_row.psr_value
          match evaluate_signal watch_item.ticker cfg.trade_date
              watch_item.metric_type metric_value medians with
          | .error e => (s2, .error e)
          | .ok evaluation =>
            let previous_state := env.get_latest_state s2 watch_item.ticker
            let state := build_signal_state evaluation previous_state none
            let s3 := env.upsert_state s2 state
            if state.category.getD "" ≠ "" && state.combo.getD "" ≠ "" then
              match format_signal_message watch_item.ticker watch_item.name state
                  state.metric_value medians.median_1w medians.median_3m
                  medians.median_1y with
              | .error e => (s3, .error e)
              | .ok message =>
                match dispatch_with_cooldown env cfg.cooldown_hours cfg.now
                    cfg.channel s3 message watch_item.ticker state.is_strong with
                | (s4, .error e) => (s4, .error e)
                | (s4, .ok (sent, skipped)) =>
                  (s4, .ok { processed_tickers := 1, sent_notifications := sent
                             skipped_notifications := skipped, errors := 0 })
            else
              (s3, .ok { processed_tickers := 1, sent_notifications := 0
                         skipped_notifications := 0, errors := 0 })

/-- The per-item try/except of run_daily_pipeline: an escaped exception
becomes PipelineResult(processed_tickers=1, errors=1), with the store
effects that already happened kept. -/
def process_ticker_caught {σ : Type} (env : PipelineEnv σ)
    (cfg : DailyPipelineConfig) (item : WatchlistItem) (s : σ) :
    σ × PipelineResult :=
  match process_single_ticker env cfg item s with
  | (s1, .ok r) => (s1, r)
  | (s1, .error _) =>
    (s1, { processed_tickers := 1, sent_notifications := 0
           skipped_notifications := 0, errors := 1 })

/-- The for-loop of run_daily_pipeline with its result accumulator. -/
def run_daily_pipeline_aux {σ : Type} (env : PipelineEnv σ)
    (cfg : DailyPipelineConfig) :
    List WatchlistItem → σ → PipelineResult → σ × PipelineResult
  | [], s, acc => (s, acc)
  | item :: rest, s, acc =>
    if item.is_active && is_channel_enabled item cfg.channel &&
        should_dispatch_for_timing item.notify_timing cfg.execution_mode then
      let sr := process_ticker_caught env cfg item s
      run_daily_pipeline_aux env cfg rest sr.1 (acc.merge sr.2)
    else run_daily_pipeline_aux env cfg rest s acc

/-- pipeline.run_daily_pipeline. -/
def run_daily_pipeline {σ : Type} (env : PipelineEnv σ)
    (cfg : DailyPipelineConfig) (watchlist_items : List WatchlistItem)
    (s : σ) : σ × PipelineResult :=
  run_daily_pipeline_aux env cfg watchlist_items s
    { processed_tickers := 0, sent_notifications := 0
      skipped_notifications := 0, errors := 0 }

/-! A concrete pipeline instance over the trivial store (σ = Unit) used
for the worked example: ticker 7203:JP fails its fetch, ticker 6758:JP
succeeds and yields a strong PER signal. -/

/-- Example snapshot for the succeeding ticker. -/
def ex_snapshot : MarketDataSnapshot :=
  { ticker := "6758:JP", close_price := some 10, eps_forecast := some 1
    sales_forecast := some 2, market_cap := none
    earnings_date := some "2026-01-05", source := "stub", fetched_at := "now" }

/-- Example historical metric row (PER 20) returned by the metrics
repository. -/
def ex_old_metric : DailyMetric :=
  { ticker := "6758:JP", trade_date := 7, close_price := some 20
    eps_forecast := some 1, sales_forecast := some 2, per_value := some 20
    psr_value := some 10, data_source := "stub", fetched_at := "then" }

/-- Example environment: repositories over the trivial store. -/
def ex_env : PipelineEnv Unit :=
  { fetch_snapshot := fun t =>
      if t = "6758:JP" then Except.ok ex_snapshot else Except.error "boom"
    upsert_metric := fun _ _ => ()
    list_recent_metrics := fun _ _ _ => [ex_old_metric]
    upsert_medians := fun _ _ => ()
    get_latest_state := fun _ _ => none
    upsert_state := fun _ _ => ()
    append_log := fun _ _ => ()
    list_recent_log := fun _ _ _ => []
    send := fun _ _ => ()
    sha1hex := fun _ => "" }

/-- Example pipeline configuration. -/
def ex_cfg : DailyPipelineConfig :=
  { trade_date := 8, window_1w_days := 1, window_3m_days := 1
    window_1y_days := 1, cooldown_hours := 2, now := 10000
    channel := "DISCORD", execution_mode := .ALL }

/-- Example watchlist item whose fetch fails. -/
def ex_item_a : WatchlistItem :=
  { ticker := "7203:JP", name := "A", metric_type := .PER
    notify_channel := .DISCORD, notify_timing := .IMMEDIATE
    ai_enabled := false, is_active := true }

/-- Example watchlist item that yields a signal. -/
def ex_item_b : WatchlistItem :=
  { ticker := "6758:JP", name := "B", metric_type := .PER
    notify_channel := .DISCORD, notify_timing := .IMMEDIATE
    ai_enabled := false, is_active := true }

/-- The metric row built for ex_item_b (per = 10/1, psr = 10/2). -/
def ex_metric_b : DailyMetric :=
  { ticker := "6758:JP", trade_date := 8, close_price := some 10
    eps_forecast := some 1, sales_forecast := some 2, per_value := some 10
    psr_value := some 5, data_source := "stub", fetched_at := "now" }

/-- The medians computed for ex_item_b (all windows are 1 day over the
single historical value 20). -/
def ex_medians_b : MetricMedians :=
  { ticker := "6758:JP", trade_date := 8, median_1w := some 20
    median_3m := some 20, median_1y := some 20, source_metric_type := .PER
    calculated_at := none }

/-- The (strong) evaluation of ex_item_b. -/
def ex_eval_b : SignalEvaluation :=
  { ticker := "6758:JP", trade_date := 8, metric_type := .PER
    metric_value := some 10, under_1w := true, under_3m := true
    under_1y := true, combo := some "1Y+3M+1W", is_strong := true
    category := some "超PER割安" }

/-- The state stored for ex_item_b (fresh streak). -/
def ex_state_b : SignalState :=
  { ticker := "6758:JP", trade_date := 8, metric_type := .PER
    metric_value := some 10, under_1w := true, under_3m := true
    under_1y := true, combo := some "1Y+3M+1W", is_strong := true
    category := some "超PER割安", streak_days := 1, updated_at := none }

/-! Theorems. -/

theorem under_median_eq_true_iff (v : ℚ) (o : Option ℚ) :
    under_median v o = true ↔ ∃ m, o = some m ∧ v < m := by
  cases o <;> simp [under_median]

theorem under_median_eq_false_iff (v : ℚ) (o : Option ℚ) :
    under_median v o = false ↔ ∀ m, o = some m → m ≤ v := by
  cases o <;> simp [under_median]

/-- C1: evaluate_signal assigns combo and category by the fixed
first-match priority over the three under flags; each under flag is
metric_value < that median and is false whenever that median (or the
metric value) is null; the result has a category iff at least two of the
three flags hold, and a null metric_value gives all-false flags and no
category. -/
theorem evaluate_signal_priority_rule
    (ticker : String) (trade_date : ℤ) (metric_type : MetricType)
    (metric_value : Option ℚ) (medians : MetricMedians) (ev : SignalEvaluation)
    (h : evaluate_signal ticker trade_date metric_type metric_value medians =
      .ok ev) :
    (ev.category.isSome = true ↔
      ((ev.under_1y && ev.under_3m) || (ev.under_3m && ev.under_1w) ||
        (ev.under_1y && ev.under_1w)) = true) ∧
    (ev.under_1w = true ↔
      ∃ v m, metric_value = some v ∧ medians.median_1w = some m ∧ v < m) ∧
    (ev.under_3m = true ↔
      ∃ v m, metric_value = some v ∧ medians.median_3m = some m ∧ v < m) ∧
    (ev.under_1y = true ↔
      ∃ v m, metric_value = some v ∧ medians.median_1y = some m ∧ v < m) ∧
    (ev.is_strong = (ev.under_1y && ev.under_3m && ev.under_1w)) ∧
    (ev.is_strong = true →
      ev.combo = some "1Y+3M+1W" ∧
      ev.category =
        some (if metric_type = .PER then "超PER割安" else "超PSR割安")) ∧
    (ev.is_strong = false → ev.under_1y = true → ev.under_3m = true →
      ev.combo = some "1Y+3M" ∧
      ev.category = some (if metric_type = .PER then "PER割安" else "PSR割安")) ∧
    (ev.is_strong = false → ¬(ev.under_1y = true ∧ ev.under_3m = true) →
      ev.under_3m = true → ev.under_1w = true →
      ev.combo = some "3M+1W" ∧
      ev.category = some (if metric_type = .PER then "PER割安" else "PSR割安")) ∧
    (ev.is_strong = false → ¬(ev.under_1y = true ∧ ev.under_3m = true) →
      ¬(ev.under_3m = true ∧ ev.under_1w = true) →
      ev.under_1y = true → ev.under_1w = true →
      ev.combo = some "1Y+1W" ∧
      ev.category = some (if metric_type = .PER then "PER割安" else "PSR割安")) ∧
    (metric_value = none →
      ev.under_1w = false ∧ ev.under_3m = false ∧ ev.under_1y = false ∧
        ev.combo = none ∧ ev.category = none) := by
  match hn : normalize_ticker ticker with
  | .error e => simp [evaluate_signal, hn] at h
  | .ok nt =>
    cases metric_value with
    | none =>
      simp only [evaluate_signal, hn] at h
      cases h
      simp
    | some v =>
      simp only [evaluate_signal, hn] at h
      cases h
      simp only []
      rcases hw : under_median v medians.median_1w with _ | _ <;>
        rcases h3 : under_median v medians.median_3m with _ | _ <;>
          rcases hy : under_median v medians.median_1y with _ | _ <;>
            cases metric_type <;>
              simp_all [signal_combo_category, under_median_eq_true_iff, under_median_eq_false_iff]

/-- Witness for C1 at a concrete input: value 10 against medians
(12, 13, 14) is the strong PER case. -/
theorem evaluate_signal_priority_rule_witness :
    evaluate_signal "7203:JP" 1 .PER (some 10)
        { ticker := "7203:JP", trade_date := 1, median_1w := some 12
          median_3m := some 13, median_1y := some 14
          source_metric_type := .PER, calculated_at := none } =
      Except.ok
        { ticker := "7203:JP", trade_date := 1, metric_type := .PER
          metric_value := some 10, under_1w := true, under_3m := true
          under_1y := true, combo := some "1Y+3M+1W", is_strong := true
          category := some "超PER割安" } ∧
    (SignalEvaluation.category
        { ticker := "7203:JP", trade_date := 1, metric_type := .PER
          metric_value := some 10, under_1w := true, under_3m := true
          under_1y := true, combo := some "1Y+3M+1W", is_strong := true
          category := some "超PER割安" }).isSome = true :=
  ⟨by decide,
    (evaluate_signal_priority_rule "7203:JP" 1 .PER (some 10)
        { ticker := "7203:JP", trade_date := 1, median_1w := some 12
          median_3m := some 13, median_1y := some 14
          source_metric_type := .PER, calculated_at := none }
        { ticker := "7203:JP", trade_date := 1, metric_type := .PER
          metric_value := some 10, under_1w := true, under_3m := true
          under_1y := true, combo := some "1Y+3M+1W", is_strong := true
          category := some "超PER割安" } (by decide)).1.mpr (by decide)⟩

theorem blocks_candidate_eq_true_iff (nt category condition_key : String)
    (threshold : ℤ) (e : NotificationLogEntry) :
    blocks_candidate nt category condition_key threshold e = true ↔
      e.ticker = nt ∧ e.category = category ∧ e.condition_key = condition_key ∧
        threshold ≤ e.sent_at := by
  simp [blocks_candidate, is_recent, and_assoc]

theorem escalates_candidate_eq_true_iff (nt head : String) (threshold : ℤ)
    (e : NotificationLogEntry) :
    escalates_candidate nt head threshold e = true ↔
      e.ticker = nt ∧ e.is_strong = false ∧ metric_head e.condition_key = head ∧
        threshold ≤ e.sent_at := by
  simp [escalates_candidate, is_recent, and_assoc]

theorem any_eq_of_perm {α : Type} {l1 l2 : List α} (hp : l1.Perm l2)
    (f : α → Bool) : l1.any f = l2.any f := by
  refine Bool.eq_iff_iff.mpr ?_
  simp only [List.any_eq_true]
  constructor
  · rintro ⟨x, hx, hfx⟩
    exact ⟨x, hp.mem_iff.mp hx, hfx⟩
  · rintro ⟨x, hx, hfx⟩
    exact ⟨x, hp.mem_iff.mpr hx, hfx⟩

/-- C3: with a valid configuration, evaluate_cooldown answers
should_send = false exactly when some log entry matches the candidate's
ticker, category and condition_key and was sent within cooldown_hours of
now (sent_at >= now - cooldown_hours). -/
theorem evaluate_cooldown_primary_iff
    (now cooldown_hours : ℤ) (ticker category condition_key : String)
    (is_strong : Bool) (entries : List NotificationLogEntry)
    (nt : String) (d : CooldownDecision)
    (hn : normalize_ticker ticker = Except.ok nt)
    (h : evaluate_cooldown now cooldown_hours ticker category condition_key
      is_strong entries = Except.ok d) :
    d.should_send = false ↔
      ∃ e ∈ entries, e.ticker = nt ∧ e.category = category ∧
        e.condition_key = condition_key ∧
        now - 3600 * cooldown_hours ≤ e.sent_at := by
  by_cases hc : cooldown_hours ≤ 0
  · simp [evaluate_cooldown, hc] at h
  · simp only [evaluate_cooldown, hc, if_false, hn] at h
    by_cases hb : entries.any (blocks_candidate nt category condition_key
        (now - 3600 * cooldown_hours)) = true
    · rw [if_pos hb] at h
      cases h
      simp only [List.any_eq_true, blocks_candidate_eq_true_iff] at hb
      simpa using hb
    · rw [if_neg hb] at h
      simp only [List.any_eq_true, blocks_candidate_eq_true_iff] at hb
      constructor
      · intro hfalse
        exfalso
        by_cases he : (is_strong && entries.any (escalates_candidate nt
            (metric_head condition_key) (now - 3600 * cooldown_hours))) = true
        · rw [if_pos he] at h
          cases h
          simp at hfalse
        · rw [if_neg he] at h
          cases h
          simp at hfalse
      · intro hex
        exact absurd hex hb

/-- Witness for C3: a second identical non-strong notification 9000-2800
seconds inside the 2-hour window is suppressed; the same pair more than
2 hours apart is allowed; the suppression agrees with the iff. -/
theorem evaluate_cooldown_primary_iff_witness :
    evaluate_cooldown 10000 2 "7203:JP" "PER割安" "PER:1Y+3M" false
        [{ entry_id := "e1", ticker := "7203:JP", category := "PER割安"
           condition_key := "PER:1Y+3M", sent_at := 9000, channel := "DISCORD"
           payload_hash := "", is_strong := false }] =
      Except.ok { should_send := false, reason := "2時間クールダウン中" } ∧
    evaluate_cooldown 20000 2 "7203:JP" "PER割安" "PER:1Y+3M" false
        [{ entry_id := "e1", ticker := "7203:JP", category := "PER割安"
           condition_key := "PER:1Y+3M", sent_at := 9000, channel := "DISCORD"
           payload_hash := "", is_strong := false }] =
      Except.ok { should_send := true, reason := "送信可" } ∧
    (CooldownDecision.should_send
        { should_send := false, reason := "2時間クールダウン中" } = false) :=
  ⟨by decide, by decide,
    (evaluate_cooldown_primary_iff 10000 2 "7203:JP" "PER割安" "PER:1Y+3M" false
        [{ entry_id := "e1", ticker := "7203:JP", category := "PER割安"
           condition_key := "PER:1Y+3M", sent_at := 9000, channel := "DISCORD"
           payload_hash := "", is_strong := false }] "7203:JP"
        { should_send := false, reason := "2時間クールダウン中" }
        (by decide) (by decide)).mpr
      ⟨{ entry_id := "e1", ticker := "7203:JP", category := "PER割安"
         condition_key := "PER:1Y+3M", sent_at := 9000, channel := "DISCORD"
         payload_hash := "", is_strong := false }, by decide, by decide,
        by decide, by decide, by decide⟩⟩

/-- Counterexample to C2 as stated: the candidate is strong and a
non-strong entry with the same ticker and the same metric-type prefix of
condition_key lies inside the cooldown window, yet — because that entry
also matches the candidate's exact category and condition_key — the
primary cooldown rule fires first and evaluate_cooldown returns
should_send = false, not true. -/
theorem evaluate_cooldown_escalation_cex :
    NotificationLogEntry.is_strong
        { entry_id := "e1", ticker := "7203:JP", category := "超PER割安"
          condition_key := "PER:1Y+3M+1W", sent_at := 9000, channel := "DISCORD"
          payload_hash := "", is_strong := false } = false ∧
    metric_head "PER:1Y+3M+1W" = metric_head "PER:1Y+3M+1W" ∧
    ((10000 : ℤ) - 3600 * 2 ≤ 9000) ∧
    evaluate_cooldown 10000 2 "7203:JP" "超PER割安" "PER:1Y+3M+1W" true
        [{ entry_id := "e1", ticker := "7203:JP", category := "超PER割安"
           condition_key := "PER:1Y+3M+1W", sent_at := 9000, channel := "DISCORD"
           payload_hash := "", is_strong := false }] =
      Except.ok { should_send := false, reason := "2時間クールダウン中" } := by
  refine ⟨rfl, rfl, by decide, by decide⟩

/-- C2 (amended): the normal-to-strong escalation holds whenever the
primary rule did not already block — if no entry matches the candidate's
exact ticker/category/condition_key inside the window, the candidate is
strong, and some non-strong entry with the same ticker and metric-type
prefix of condition_key was sent within the window, then
evaluate_cooldown returns should_send = true with the escalation
reason. -/
theorem evaluate_cooldown_escalation
    (now cooldown_hours : ℤ) (ticker category condition_key : String)
    (entries : List NotificationLogEntry) (nt : String)
    (hc : 0 < cooldown_hours)
    (hn : normalize_ticker ticker = Except.ok nt)
    (hnoblock : ∀ e ∈ entries, ¬(e.ticker = nt ∧ e.category = category ∧
      e.condition_key = condition_key ∧ now - 3600 * cooldown_hours ≤ e.sent_at))
    (hesc : ∃ e ∈ entries, e.ticker = nt ∧ e.is_strong = false ∧
      metric_head e.condition_key = metric_head condition_key ∧
      now - 3600 * cooldown_hours ≤ e.sent_at) :
    evaluate_cooldown now cooldown_hours ticker category condition_key true
        entries =
      Except.ok { should_send := true, reason := "通常→強遷移のため即時通知" } := by
  have hc' : ¬ cooldown_hours ≤ 0 := by omega
  simp only [evaluate_cooldown, hc', if_false, hn]
  have hb : entries.any (blocks_candidate nt category condition_key
      (now - 3600 * cooldown_hours)) = false := by
    rw [List.any_eq_false]
    intro e he
    rw [Bool.not_eq_true, ← Bool.not_eq_true]
    intro hcontra
    exact hnoblock e he ((blocks_candidate_eq_true_iff _ _ _ _ _).mp hcontra)
  have he : entries.any (escalates_candidate nt (metric_head condition_key)
      (now - 3600 * cooldown_hours)) = true := by
    rw [List.any_eq_true]
    obtain ⟨e, hmem, h1, h2, h3, h4⟩ := hesc
    exact ⟨e, hmem, (escalates_candidate_eq_true_iff _ _ _ _).mpr ⟨h1, h2, h3, h4⟩⟩
  rw [hb]
  simp [he]

/-- Witness for the amended C2: a strong candidate 2800 seconds after a
non-strong notification of the same ticker and PER metric type (different
condition_key, so the primary rule does not block) is sent immediately. -/
theorem evaluate_cooldown_escalation_witness :
    evaluate_cooldown 10000 2 "7203:JP" "超PER割安" "PER:1Y+3M+1W" true
        [{ entry_id := "e1", ticker := "7203:JP", category := "PER割安"
           condition_key := "PER:1Y+3M", sent_at := 9000, channel := "DISCORD"
           payload_hash := "", is_strong := false }] =
      Except.ok { should_send := true, reason := "通常→強遷移のため即時通知" } :=
  evaluate_cooldown_escalation 10000 2 "7203:JP" "超PER割安" "PER:1Y+3M+1W"
    [{ entry_id := "e1", ticker := "7203:JP", category := "PER割安"
       condition_key := "PER:1Y+3M", sent_at := 9000, channel := "DISCORD"
       payload_hash := "", is_strong := false }] "7203:JP"
    (by decide) (by decide) (by decide)
    ⟨{ entry_id := "e1", ticker := "7203:JP", category := "PER割安"
       condition_key := "PER:1Y+3M", sent_at := 9000, channel := "DISCORD"
       payload_hash := "", is_strong := false }, by decide, by decide, by decide,
      by decide, by decide⟩

/-- C9: evaluate_cooldown is a pure function of its inputs and is
order-independent over the recent entries — permuting the entry list
changes neither should_send nor reason (each rule only asks whether some
matching entry exists). -/
theorem evaluate_cooldown_perm_invariant
    (now cooldown_hours : ℤ) (ticker category condition_key : String)
    (is_strong : Bool) (l1 l2 : List NotificationLogEntry)
    (hp : l1.Perm l2) :
    evaluate_cooldown now cooldown_hours ticker category condition_key
        is_strong l1 =
      evaluate_cooldown now cooldown_hours ticker category condition_key
        is_strong l2 := by
  simp only [evaluate_cooldown, any_eq_of_perm hp]

/-- Witness for C9: swapping a two-entry log leaves the decision
unchanged. -/
theorem evaluate_cooldown_perm_invariant_witness :
    evaluate_cooldown 10000 2 "7203:JP" "PER割安" "PER:1Y+3M" false
        [{ entry_id := "e1", ticker := "7203:JP", category := "PER割安"
           condition_key := "PER:1Y+3M", sent_at := 9000, channel := "DISCORD"
           payload_hash := "", is_strong := false },
         { entry_id := "e2", ticker := "7203:JP", category := "超PER割安"
           condition_key := "PER:1Y+3M+1W", sent_at := 9500, channel := "DISCORD"
           payload_hash := "", is_strong := true }] =
      evaluate_cooldown 10000 2 "7203:JP" "PER割安" "PER:1Y+3M" false
        [{ entry_id := "e2", ticker := "7203:JP", category := "超PER割安"
           condition_key := "PER:1Y+3M+1W", sent_at := 9500, channel := "DISCORD"
           payload_hash := "", is_strong := true },
         { entry_id := "e1", ticker := "7203:JP", category := "PER割安"
           condition_key := "PER:1Y+3M", sent_at := 9000, channel := "DISCORD"
           payload_hash := "", is_strong := false }] :=
  evaluate_cooldown_perm_invariant 10000 2 "7203:JP" "PER割安" "PER:1Y+3M" false
    [{ entry_id := "e1", ticker := "7203:JP", category := "PER割安"
       condition_key := "PER:1Y+3M", sent_at := 9000, channel := "DISCORD"
       payload_hash := "", is_strong := false },
     { entry_id := "e2", ticker := "7203:JP", category := "超PER割安"
       condition_key := "PER:1Y+3M+1W", sent_at := 9500, channel := "DISCORD"
       payload_hash := "", is_strong := true }]
    [{ entry_id := "e2", ticker := "7203:JP", category := "超PER割安"
       condition_key := "PER:1Y+3M+1W", sent_at := 9500, channel := "DISCORD"
       payload_hash := "", is_strong := true },
     { entry_id := "e1", ticker := "7203:JP", category := "PER割安"
       condition_key := "PER:1Y+3M", sent_at := 9000, channel := "DISCORD"
       payload_hash := "", is_strong := false }] (List.Perm.swap
      ({ entry_id := "e2", ticker := "7203:JP", category := "超PER割安"
         condition_key := "PER:1Y+3M+1W", sent_at := 9500, channel := "DISCORD"
         payload_hash := "", is_strong := true } : NotificationLogEntry)
      ({ entry_id := "e1", ticker := "7203:JP", category := "PER割安"
         condition_key := "PER:1Y+3M", sent_at := 9000, channel := "DISCORD"
         payload_hash := "", is_strong := false } : NotificationLogEntry) [])

theorem is_previous_business_day_iff (p c : ℤ) :
    is_previous_business_day p c = true ↔
      (p < c ∧ weekday p < 5 ∧ ∀ d, p < d → d < c → 5 ≤ weekday d) := by
  simp only [is_previous_business_day, weekday, decide_eq_true_eq]
  split_ifs with h1 h2
  · -- the day before is a Sunday and the one before a Saturday: e2 = c - 3
    constructor
    · rintro rfl
      refine ⟨by omega, by omega, fun d hd1 hd2 => ?_⟩
      have hd : d = c - 2 ∨ d = c - 1 := by omega
      rcases hd with rfl | rfl <;> omega
    · rintro ⟨hpc, hwp, hall⟩
      by_cases hp1 : p = c - 1
      · subst hp1; omega
      by_cases hp2 : p = c - 2
      · subst hp2; omega
      by_cases hp3 : p = c - 3
      · omega
      · have h6 := hall (c - 3) (by omega) (by omega)
        omega
  · -- the day before is a Saturday: e2 = c - 2
    constructor
    · rintro rfl
      refine ⟨by omega, by omega, fun d hd1 hd2 => ?_⟩
      have hd : d = c - 1 := by omega
      subst hd; omega
    · rintro ⟨hpc, hwp, hall⟩
      by_cases hp1 : p = c - 1
      · subst hp1; omega
      by_cases hp2 : p = c - 2
      · omega
      · have h6 := hall (c - 2) (by omega) (by omega)
        omega
  · -- the day before is a weekday: e2 = c - 1 (the second test repeats the
    -- same false condition)
    constructor
    · rintro rfl
      exact ⟨by omega, by omega, fun d hd1 hd2 => by omega⟩
    · rintro ⟨hpc, hwp, hall⟩
      by_cases hp1 : p = c - 1
      · exact hp1
      · have h6 := hall (c - 1) (by omega) (by omega)
        omega

/-- C4: build_signal_state's streak rule — no category gives streak 0
regardless of the previous streak; with a category, the streak increments
the previous streak exactly when a previous state exists with the same
category, combo and is_strong flag and its trade_date is the prior
business day of the evaluation's trade_date (the most recent calendar day
before it whose weekday is Monday–Friday, per
is_previous_business_day_iff below restated here); in every other case
the streak is 1. -/
theorem build_signal_state_streak_rule
    (evaluation : SignalEvaluation) (previous_state : Option SignalState)
    (updated_at : Option String) :
    (evaluation.category = none →
      (build_signal_state evaluation previous_state updated_at).streak_days = 0) ∧
    (evaluation.category ≠ none → previous_state = none →
      (build_signal_state evaluation previous_state updated_at).streak_days = 1) ∧
    (∀ prev, evaluation.category ≠ none → previous_state = some prev →
      ((is_same_signal prev evaluation = true ∧
          (prev.trade_date < evaluation.trade_date ∧
            weekday prev.trade_date < 5 ∧
            ∀ d, prev.trade_date < d → d < evaluation.trade_date →
              5 ≤ weekday d) →
        (build_signal_state evaluation previous_state updated_at).streak_days =
          prev.streak_days + 1) ∧
       (¬(is_same_signal prev evaluation = true ∧
          (prev.trade_date < evaluation.trade_date ∧
            weekday prev.trade_date < 5 ∧
            ∀ d, prev.trade_date < d → d < evaluation.trade_date →
              5 ≤ weekday d)) →
        (build_signal_state evaluation previous_state updated_at).streak_days =
          1))) := by
  refine ⟨?_, ?_, ?_⟩
  · intro hcat
    simp [build_signal_state, SignalEvaluation.has_signal, hcat]
  · intro hcat hprev
    subst hprev
    have hs : evaluation.has_signal = true := by
      simp [SignalEvaluation.has_signal, Option.isSome_iff_exists]
      cases hc : evaluation.category with
      | none => exact absurd hc hcat
      | some c => exact ⟨c, rfl⟩
    simp [build_signal_state, hs]
  · intro prev hcat hprev
    subst hprev
    have hs : evaluation.has_signal = true := by
      simp [SignalEvaluation.has_signal, Option.isSome_iff_exists]
      cases hc : evaluation.category with
      | none => exact absurd hc hcat
      | some c => exact ⟨c, rfl⟩
    constructor
    · rintro ⟨hsame, hbiz⟩
      have hb : is_previous_business_day prev.trade_date evaluation.trade_date = true :=
        (is_previous_business_day_iff _ _).mpr hbiz
      simp [build_signal_state, hs, hsame, hb]
    · intro hnot
      have hb : (is_same_signal prev evaluation &&
          is_previous_business_day prev.trade_date evaluation.trade_date) = false := by
        cases h1 : is_same_signal prev evaluation with
        | false => simp
        | true =>
          cases hb2 : is_previous_business_day prev.trade_date
              evaluation.trade_date with
          | false => simp
          | true =>
            exact absurd ⟨h1, (is_previous_business_day_iff _ _).mp hb2⟩ hnot
      simp [build_signal_state, hs, hb]

/-- Witness for C4: a same-signal previous state on Friday (ordinal 5)
continues into Monday (ordinal 8): streak 2 becomes 3. -/
theorem build_signal_state_streak_rule_witness :
    (build_signal_state
        { ticker := "7203:JP", trade_date := 8, metric_type := .PER
          metric_value := some 10, under_1w := false, under_3m := true
          under_1y := true, combo := some "1Y+3M", is_strong := false
          category := some "PER割安" }
        (some { ticker := "7203:JP", trade_date := 5, metric_type := .PER
                metric_value := some 11, under_1w := false, under_3m := true
                under_1y := true, combo := some "1Y+3M", is_strong := false
                category := some "PER割安", streak_days := 2, updated_at := none })
        none).streak_days = 2 + 1 :=
  ((build_signal_state_streak_rule
      { ticker := "7203:JP", trade_date := 8, metric_type := .PER
        metric_value := some 10, under_1w := false, under_3m := true
        under_1y := true, combo := some "1Y+3M", is_strong := false
        category := some "PER割安" }
      (some { ticker := "7203:JP", trade_date := 5, metric_type := .PER
              metric_value := some 11, under_1w := false, under_3m := true
              under_1y := true, combo := some "1Y+3M", is_strong := false
              category := some "PER割安", streak_days := 2, updated_at := none })
      none).2.2
    { ticker := "7203:JP", trade_date := 5, metric_type := .PER
      metric_value := some 11, under_1w := false, under_3m := true
      under_1y := true, combo := some "1Y+3M", is_strong := false
      category := some "PER割安", streak_days := 2, updated_at := none }
    (by decide) rfl).1
    ⟨by decide, by decide, by decide,
      fun d h1 h2 => by
        have h1' : (5 : ℤ) < d := h1
        have h2' : d < 8 := h2
        simp only [weekday]
        omega⟩

/-- Counterexample to C6 as stated: with market_cap known but equal to 0
(and sales_forecast = 1, close_price = 5) the claim prescribes
psr_value = market_cap / sales_forecast = 0, but build_daily_metric falls
back to close_price / sales_forecast = 5: the code additionally requires
market_cap > 0. -/
theorem build_daily_metric_market_cap_cex :
    (build_daily_metric "7203:JP" 1 .PSR
        { ticker := "7203:JP", close_price := some 5, eps_forecast := none
          sales_forecast := some 1, market_cap := some 0
          earnings_date := some "2026-01-05", source := "s"
          fetched_at := "t" }).map (fun m => m.psr_value) =
      Except.ok (some 5) ∧ (5 : ℚ) ≠ 0 / 1 := by
  have hn : normalize_ticker "7203:JP" = Except.ok "7203:JP" := by decide
  constructor
  · simp only [build_daily_metric, hn]
    norm_num [Except.map]
  · norm_num

/-- C6 (amended): per_value = close_price / eps_forecast when close_price
is present and eps_forecast > 0, else null; psr_value =
market_cap / sales_forecast when close_price is present, sales_forecast >
0 and market_cap is known AND positive, else close_price / sales_forecast
when close_price is present and sales_forecast > 0, else null; any
missing required input (including a null close_price) yields a null
metric value rather than an error. -/
theorem build_daily_metric_values
    (ticker : String) (trade_date : ℤ) (metric_type : MetricType)
    (snapshot : MarketDataSnapshot) (m : DailyMetric)
    (h : build_daily_metric ticker trade_date metric_type snapshot =
      Except.ok m) :
    (∀ c e, snapshot.close_price = some c → snapshot.eps_forecast = some e →
      0 < e → m.per_value = some (c / e)) ∧
    (snapshot.close_price = none ∨ snapshot.eps_forecast = none ∨
      (∃ e, snapshot.eps_forecast = some e ∧ e ≤ 0) → m.per_value = none) ∧
    (∀ c s mc, snapshot.close_price = some c →
      snapshot.sales_forecast = some s → 0 < s →
      snapshot.market_cap = some mc → 0 < mc → m.psr_value = some (mc / s)) ∧
    (∀ c s, snapshot.close_price = some c → snapshot.sales_forecast = some s →
      0 < s →
      (snapshot.market_cap = none ∨
        (∃ mc, snapshot.market_cap = some mc ∧ mc ≤ 0)) →
      m.psr_value = some (c / s)) ∧
    (snapshot.close_price = none ∨ snapshot.sales_forecast = none ∨
      (∃ s, snapshot.sales_forecast = some s ∧ s ≤ 0) → m.psr_value = none) := by
  cases hn : normalize_ticker ticker with
  | error e => simp [build_daily_metric, hn] at h
  | ok nt =>
    simp only [build_daily_metric, hn] at h
    cases h
    refine ⟨?_, ?_, ?_, ?_, ?_⟩
    · intro c e hc he hpos
      simp [hc, he, hpos]
    · rintro (hc | he | ⟨e, he, hle⟩)
      · simp [hc]
      · cases hc : snapshot.close_price <;> simp [hc, he]
      · cases hc : snapshot.close_price <;> simp [hc, he, not_lt.mpr hle]
    · intro c s mc hc hs hspos hmc hmcpos
      simp [hc, hs, hspos, hmc, hmcpos]
    · rintro c s hc hs hspos (hmc | ⟨mc, hmc, hmcle⟩)
      · simp [hc, hs, hspos, hmc]
      · simp [hc, hs, hspos, hmc, not_lt.mpr hmcle]
    · rintro (hc | hs | ⟨s, hs, hsle⟩)
      · simp [hc]
      · cases hc : snapshot.close_price <;> simp [hc, hs]
      · cases hc : snapshot.close_price <;> simp [hc, hs, not_lt.mpr hsle]

/-- Witness for the amended C6: close 10, eps 4, sales 2, market_cap 50
gives per = 10/4 and psr = 50/2. -/
theorem build_daily_metric_values_witness :
    (build_daily_metric "7203:JP" 1 .PER
        { ticker := "7203:JP", close_price := some 10, eps_forecast := some 4
          sales_forecast := some 2, market_cap := some 50
          earnings_date := some "2026-01-05", source := "s"
          fetched_at := "t" }).map (fun m => m.per_value) =
      Except.ok (some (10 / 4)) := by
  have h : build_daily_metric "7203:JP" 1 .PER
      { ticker := "7203:JP", close_price := some 10, eps_forecast := some 4
        sales_forecast := some 2, market_cap := some 50
        earnings_date := some "2026-01-05", source := "s"
        fetched_at := "t" } =
      Except.ok
        { ticker := "7203:JP", trade_date := 1, close_price := some 10
          eps_forecast := some 4, sales_forecast := some 2
          per_value := some (10 / 4), psr_value := some (50 / 2)
          data_source := "s", fetched_at := "t" } := by
    have hn : normalize_ticker "7203:JP" = Except.ok "7203:JP" := by decide
    simp only [build_daily_metric, hn]
    norm_num
  have hv := (build_daily_metric_values "7203:JP" 1 .PER
      { ticker := "7203:JP", close_price := some 10, eps_forecast := some 4
        sales_forecast := some 2, market_cap := some 50
        earnings_date := some "2026-01-05", source := "s"
        fetched_at := "t" }
      { ticker := "7203:JP", trade_date := 1, close_price := some 10
        eps_forecast := some 4, sales_forecast := some 2
        per_value := some (10 / 4), psr_value := some (50 / 2)
        data_source := "s", fetched_at := "t" } h).1 10 4 rfl rfl (by norm_num)
  rw [h]
  show Except.ok (DailyMetric.per_value
      { ticker := "7203:JP", trade_date := 1, close_price := some 10
        eps_forecast := some 4, sales_forecast := some 2
        per_value := some (10 / 4), psr_value := some (50 / 2)
        data_source := "s", fetched_at := "t" }) =
    Except.ok (some ((10 : ℚ) / 4))
  rw [hv]

/-- C7: for window_size > 0, the rolling median returns null exactly when
fewer than window_size values exist, and otherwise the median of the
window_size most-recent values (the head of the newest-first list): the
middle of a sorted permutation of that window, averaging the two middle
elements for an even window. Includes the spec's two examples. -/
theorem window_median_spec (values : List ℚ) (window_size : ℤ)
    (hw : 0 < window_size) :
    (window_median values window_size = Except.ok none ↔
      (values.length : ℤ) < window_size) ∧
    (window_size ≤ (values.length : ℤ) →
      window_median values window_size =
        Except.ok (some (py_statistics_median
          (values.take window_size.toNat))) ∧
      ∃ s : List ℚ, s.Perm (values.take window_size.toNat) ∧
        s.Sorted (· ≤ ·) ∧
        py_statistics_median (values.take window_size.toNat) =
          (if s.length % 2 = 1 then s.getD (s.length / 2) 0
           else (s.getD (s.length / 2 - 1) 0 + s.getD (s.length / 2) 0) / 2)) ∧
    window_median [10, 15] 2 = Except.ok (some (25 / 2)) ∧
    window_median [10] 2 = Except.ok none := by
  have hw' : ¬ window_size ≤ 0 := by omega
  refine ⟨?_, ?_, ?_, ?_⟩
  · simp only [window_median, hw', if_false]
    by_cases hlen : (values.length : ℤ) < window_size
    · simp [hlen]
    · simp [hlen]
  · intro hge
    have hlen : ¬ ((values.length : ℤ) < window_size) := by omega
    constructor
    · simp [window_median, hw', hlen]
    · refine ⟨List.insertionSort (· ≤ ·) (values.take window_size.toNat),
        List.perm_insertionSort _ _, List.sorted_insertionSort _ _, rfl⟩
  · norm_num [window_median, py_statistics_median, List.insertionSort,
      List.orderedInsert]
  · norm_num [window_median]

/-- Witness for C7: the two examples of the spec, by the theorem at
window_size = 2. -/
theorem window_median_spec_witness :
    window_median [10, 15] 2 = Except.ok (some (25 / 2)) ∧
    window_median [10] 2 = Except.ok none :=
  ⟨(window_median_spec [10, 15] 2 (by decide)).2.2.1,
    (window_median_spec [10] 2 (by decide)).2.2.2⟩

/-- C8: configuration errors are fatal and independent of the data —
calculate_metric_medians raises the window-order ValueError for every
metrics list whenever the windows are not ordered 1W <= 3M <= 1Y (no
median is computed), and evaluate_cooldown raises the cooldown-hours
ValueError for every entry list whenever cooldown_hours <= 0 (no entry is
scanned). -/
theorem config_errors_fatal
    (ticker : String) (trade_date : ℤ) (metric_type : MetricType)
    (metrics : List DailyMetric) (w1 w3 w1y : ℤ) (calculated_at : Option String)
    (nt : String) (hn : normalize_ticker ticker = Except.ok nt)
    (now cooldown_hours : ℤ) (t c k : String) (strong : Bool)
    (entries : List NotificationLogEntry) :
    (¬(w1 ≤ w3 ∧ w3 ≤ w1y) →
      calculate_metric_medians ticker trade_date metric_type metrics w1 w3 w1y
          calculated_at =
        Except.error "window order must satisfy 1W <= 3M <= 1Y.") ∧
    (cooldown_hours ≤ 0 →
      evaluate_cooldown now cooldown_hours t c k strong entries =
        Except.error "cooldown_hours must be > 0") := by
  constructor
  · intro hbad
    simp [calculate_metric_medians, hn, hbad]
  · intro hch
    simp [evaluate_cooldown, hch]

/-- Witness for C8 at windows (3, 2, 1) and cooldown_hours = 0. -/
theorem config_errors_fatal_witness :
    calculate_metric_medians "7203:JP" 1 .PER [] 3 2 1 none =
      Except.error "window order must satisfy 1W <= 3M <= 1Y." ∧
    evaluate_cooldown 0 0 "7203:JP" "c" "k" false [] =
      Except.error "cooldown_hours must be > 0" :=
  ⟨(config_errors_fatal "7203:JP" 1 .PER [] 3 2 1 none "7203:JP" (by decide)
      0 0 "7203:JP" "c" "k" false []).1 (by decide),
   (config_errors_fatal "7203:JP" 1 .PER [] 3 2 1 none "7203:JP" (by decide)
      0 0 "7203:JP" "c" "k" false []).2 (by decide)⟩

theorem string_eq_empty_of_length_eq_zero (s : String) (h : s.length = 0) :
    s = "" := by
  cases s with
  | mk data =>
    cases data with
    | nil => rfl
    | cons x xs => simp [String.length] at h

theorem py_join_comma_ne_empty (x : String) (xs : List String) (hx : x ≠ "") :
    py_join "," (x :: xs) ≠ "" := by
  cases xs with
  | nil => simpa [py_join] using hx
  | cons y ys =>
    simp only [py_join]
    intro hh
    have hlen := congrArg String.length hh
    rw [String.length_append, String.length_append] at hlen
    have hx0 : x.length ≠ 0 := fun h0 =>
      hx (string_eq_empty_of_length_eq_zero x h0)
    have hc : ("," : String).length = 1 := rfl
    have he : ("" : String).length = 0 := rfl
    omega

theorem append_ne_left_of_ne_empty (a b : String) (hb : b ≠ "") :
    a ++ b ≠ a := by
  intro hh
  have hlen := congrArg String.length hh
  rw [String.length_append] at hlen
  have hb0 : b.length ≠ 0 := fun h0 =>
    hb (string_eq_empty_of_length_eq_zero b h0)
  omega

theorem mem_stripped_field_set_ne_empty (l : List String) (x : String)
    (hx : x ∈ stripped_field_set l) : x ≠ "" := by
  unfold stripped_field_set py_sorted_strings at hx
  have hx2 := (List.perm_insertionSort str_le _).mem_iff.mp hx
  have hx3 := List.mem_dedup.mp hx2
  have hx4 := List.mem_filter.mp hx3
  simpa using hx4.2

theorem stripped_field_set_eq_of_same_mem (l1 l2 : List String)
    (hmem : ∀ s, s ∈ (l1.map py_strip).filter (fun x => x ≠ "") ↔
      s ∈ (l2.map py_strip).filter (fun x => x ≠ "")) :
    stripped_field_set l1 = stripped_field_set l2 := by
  unfold stripped_field_set py_sorted_strings
  have p1 := List.perm_insertionSort str_le
    ((l1.map py_strip).filter (fun x => x ≠ "")).dedup
  have p2 := List.perm_insertionSort str_le
    ((l2.map py_strip).filter (fun x => x ≠ "")).dedup
  have pd : (((l1.map py_strip).filter (fun x => x ≠ "")).dedup).Perm
      (((l2.map py_strip).filter (fun x => x ≠ "")).dedup) :=
    (List.perm_ext_iff_of_nodup (List.nodup_dedup _) (List.nodup_dedup _)).mpr
      (fun a => by
        rw [List.mem_dedup, List.mem_dedup]
        exact hmem a)
  exact List.eq_of_perm_of_sorted (p1.trans (pd.trans p2.symm))
    (List.sorted_insertionSort _ _) (List.sorted_insertionSort _ _)

/-- C10: format_data_unknown_message's condition_key is UNKNOWN: followed
by the comma-joined, lexicographically sorted set of stripped non-empty
field names ('unknown' when that set is empty); it depends only on that
set — two calls whose missing_fields agree as stripped non-empty sets
give the same condition_key — and it is never the bare prefix
'UNKNOWN:'. -/
theorem format_data_unknown_condition_key
    (ticker company_name : String) (missing_fields : List String)
    (context : String) (m : NotificationMessage)
    (h : format_data_unknown_message ticker company_name missing_fields
      context = Except.ok m) :
    (m.condition_key = "UNKNOWN:" ++ py_join ","
      (if stripped_field_set missing_fields = [] then ["unknown"]
       else stripped_field_set missing_fields)) ∧
    (∀ l2 company2 context2 m2,
      (∀ s, s ∈ (missing_fields.map py_strip).filter (fun x => x ≠ "") ↔
        s ∈ (l2.map py_strip).filter (fun x => x ≠ "")) →
      format_data_unknown_message ticker company2 l2 context2 =
        Except.ok m2 →
      m2.condition_key = m.condition_key) ∧
    m.condition_key ≠ "UNKNOWN:" := by
  cases hn : normalize_ticker ticker with
  | error e => simp [format_data_unknown_message, hn] at h
  | ok nt =>
    simp only [format_data_unknown_message, hn] at h
    cases h
    refine ⟨rfl, ?_, ?_⟩
    · intro l2 company2 context2 m2 hmem h2
      simp only [format_data_unknown_message, hn] at h2
      cases h2
      simp only [stripped_field_set_eq_of_same_mem missing_fields l2 hmem]
    · cases hs : stripped_field_set missing_fields with
      | nil =>
        simp only [hs, if_pos rfl]
        exact append_ne_left_of_ne_empty _ _ (by decide)
      | cons x xs =>
        simp only [hs]
        have hne : (x :: xs) ≠ ([] : List String) := by simp
        rw [if_neg (hs ▸ hne)]
        refine append_ne_left_of_ne_empty _ _ ?_
        exact py_join_comma_ne_empty x xs
          (mem_stripped_field_set_ne_empty missing_fields x
            (hs ▸ List.mem_cons_self x xs))

/-- Witness for C10: ["b", " a", "a", ""] and ["a", "b"] strip to the same
field set, so two calls with different company/context give the same
condition_key UNKNOWN:a,b. -/
theorem format_data_unknown_condition_key_witness :
    format_data_unknown_message "7203:JP" "N1" ["b", " a", "a", ""] "c1" =
      Except.ok
        { ticker := "7203:JP", category := "データ不明"
          condition_key := "UNKNOWN:a,b"
          body := "【データ不明】\nN1 (7203:JP)\n欠損項目: a, b\n処理: c1"
          is_strong := false } ∧
    format_data_unknown_message "7203:JP" "N2" ["a", "b"] "c2" =
      Except.ok
        { ticker := "7203:JP", category := "データ不明"
          condition_key := "UNKNOWN:a,b"
          body := "【データ不明】\nN2 (7203:JP)\n欠損項目: a, b\n処理: c2"
          is_strong := false } ∧
    NotificationMessage.condition_key
        { ticker := "7203:JP", category := "データ不明"
          condition_key := "UNKNOWN:a,b"
          body := "【データ不明】\nN2 (7203:JP)\n欠損項目: a, b\n処理: c2"
          is_strong := false } =
      NotificationMessage.condition_key
        { ticker := "7203:JP", category := "データ不明"
          condition_key := "UNKNOWN:a,b"
          body := "【データ不明】\nN1 (7203:JP)\n欠損項目: a, b\n処理: c1"
          is_strong := false } :=
  ⟨by decide, by decide,
    (format_data_unknown_condition_key "7203:JP" "N1" ["b", " a", "a", ""] "c1"
        { ticker := "7203:JP", category := "データ不明"
          condition_key := "UNKNOWN:a,b"
          body := "【データ不明】\nN1 (7203:JP)\n欠損項目: a, b\n処理: c1"
          is_strong := false } (by decide)).2.1 ["a", "b"] "N2" "c2"
      { ticker := "7203:JP", category := "データ不明"
        condition_key := "UNKNOWN:a,b"
        body := "【データ不明】\nN2 (7203:JP)\n欠損項目: a, b\n処理: c2"
        is_strong := false }
      (by
        intro s
        have hA : ((["b", " a", "a", ""].map py_strip).filter
            (fun x => x ≠ "")) = ["b", "a", "a"] := by decide
        have hB : ((["a", "b"].map py_strip).filter
            (fun x => x ≠ "")) = ["a", "b"] := by decide
        rw [hA, hB]
        simp only [List.mem_cons, List.not_mem_nil, or_false]
        tauto)
      (by decide)⟩

/-- C5: a recognized fetch failure does not abort the run — for an
eligible head item whose fetch errors, run_daily_pipeline's loop composes
the data-unknown notification, attempts it through the cooldown gate,
merges a per-ticker result with processed_tickers = 1 and errors = 1
(sent/skipped as the gate decides), and continues with the remaining
items. -/
theorem run_daily_pipeline_fetch_error_isolated
    {σ : Type} (env : PipelineEnv σ) (cfg : DailyPipelineConfig)
    (item : WatchlistItem) (rest : List WatchlistItem) (s : σ)
    (acc : PipelineResult) (msg : String) (um : NotificationMessage)
    (helig : (item.is_active && is_channel_enabled item cfg.channel &&
      should_dispatch_for_timing item.notify_timing cfg.execution_mode) = true)
    (hfetch : env.fetch_snapshot item.ticker = Except.error msg)
    (hfmt : format_data_unknown_message item.ticker item.name
      ["market_data_source"] msg = Except.ok um) :
    run_daily_pipeline_aux env cfg (item :: rest) s acc =
      (match dispatch_with_cooldown env cfg.cooldown_hours cfg.now cfg.channel
          s um item.ticker false with
       | (s1, Except.ok (sent, skipped)) =>
          run_daily_pipeline_aux env cfg rest s1
            (acc.merge { processed_tickers := 1, sent_notifications := sent
                         skipped_notifications := skipped, errors := 1 })
       | (s1, Except.error _) =>
          run_daily_pipeline_aux env cfg rest s1
            (acc.merge { processed_tickers := 1, sent_notifications := 0
                         skipped_notifications := 0, errors := 1 })) := by
  rcases hd : dispatch_with_cooldown env cfg.cooldown_hours cfg.now cfg.channel
      s um item.ticker false with ⟨s1, r⟩
  have hp : process_ticker_caught env cfg item s =
      (s1, match r with
           | Except.ok (sent, skipped) =>
              { processed_tickers := 1, sent_notifications := sent
                skipped_notifications := skipped, errors := 1 }
           | Except.error _ =>
              { processed_tickers := 1, sent_notifications := 0
                skipped_notifications := 0, errors := 1 }) := by
    simp only [process_ticker_caught, process_single_ticker, hfetch, hfmt, hd]
    rcases r with e | ⟨sent, skipped⟩ <;> rfl
  simp only [run_daily_pipeline_aux, helig, if_true, hp]
  rcases r with e | ⟨sent, skipped⟩ <;> rfl

theorem process_single_ticker_signal_path
    {σ : Type} (env : PipelineEnv σ) (cfg : DailyPipelineConfig)
    (item : WatchlistItem) (s : σ) (snap : MarketDataSnapshot)
    (row : DailyMetric) (med : MetricMedians) (ev : SignalEvaluation)
    (hfetch : env.fetch_snapshot item.ticker = Except.ok snap)
    (hrow : build_daily_metric item.ticker cfg.trade_date item.metric_type
      snap = Except.ok row)
    (hmf : row.missing_fields item.metric_type = [])
    (hed : (match snap.earnings_date with
            | none => true
            | some d => decide (d = "")) = false)
    (hmed : calculate_metric_medians item.ticker cfg.trade_date
      item.metric_type
      (env.list_recent_metrics (env.upsert_metric s row) item.ticker
        cfg.window_1y_days)
      cfg.window_1w_days cfg.window_3m_days cfg.window_1y_days none =
      Except.ok med)
    (heval : evaluate_signal item.ticker cfg.trade_date item.metric_type
      (if item.metric_type = .PER then row.per_value else row.psr_value)
      med = Except.ok ev) :
    process_single_ticker env cfg item s =
      (let s1 := env.upsert_metric s row
       let s2 := env.upsert_medians s1 med
       let st := build_signal_state ev (env.get_latest_state s2 item.ticker)
         none
       let s3 := env.upsert_state s2 st
       if st.category.getD "" ≠ "" && st.combo.getD "" ≠ "" then
         match format_signal_message item.ticker item.name st st.metric_value
             med.median_1w med.median_3m med.median_1y with
         | .error e => (s3, .error e)
         | .ok message =>
           match dispatch_with_cooldown env cfg.cooldown_hours cfg.now
               cfg.channel s3 message item.ticker st.is_strong with
           | (s4, .error e) => (s4, .error e)
           | (s4, .ok (sent, skipped)) =>
             (s4, .ok { processed_tickers := 1, sent_notifications := sent
                        skipped_notifications := skipped, errors := 0 })
       else
         (s3, .ok { processed_tickers := 1, sent_notifications := 0
                    skipped_notifications := 0, errors := 0 })) := by
  simp only [process_single_ticker, hfetch, hrow, hmf, hed, hmed, heval,
    if_false, List.nil_append, ne_eq, not_true_eq_false, Bool.false_eq_true,
    ite_false]

/-- Witness for C5: ticker 7203:JP fails its fetch (data-unknown sent,
errors 1), ticker 6758:JP yields a strong signal (sent): the merged run
result is processed_tickers = 2, sent_notifications = 2, errors = 1. -/
theorem run_daily_pipeline_fetch_error_isolated_witness :
    run_daily_pipeline ex_env ex_cfg [ex_item_a, ex_item_b] () =
      ((), { processed_tickers := 2, sent_notifications := 2
             skipped_notifications := 0, errors := 1 }) := by
  have happ := run_daily_pipeline_fetch_error_isolated ex_env ex_cfg ex_item_a
    [ex_item_b] ()
    { processed_tickers := 0, sent_notifications := 0
      skipped_notifications := 0, errors := 0 } "boom"
    { ticker := "7203:JP", category := "データ不明"
      condition_key := "UNKNOWN:market_data_source"
      body := "【データ不明】\nA (7203:JP)\n欠損項目: market_data_source\n処理: boom"
      is_strong := false }
    (by decide) (by decide) (by decide)
  have hdispA : dispatch_with_cooldown ex_env ex_cfg.cooldown_hours ex_cfg.now
      ex_cfg.channel ()
      { ticker := "7203:JP", category := "データ不明"
        condition_key := "UNKNOWN:market_data_source"
        body := "【データ不明】\nA (7203:JP)\n欠損項目: market_data_source\n処理: boom"
        is_strong := false } ex_item_a.ticker false = ((), Except.ok (1, 0)) := by
    decide
  -- the per-ticker step for the succeeding item
  have hn6 : normalize_ticker "6758:JP" = Except.ok "6758:JP" := by decide
  have hrowB : build_daily_metric ex_item_b.ticker ex_cfg.trade_date
      ex_item_b.metric_type ex_snapshot = Except.ok ex_metric_b := by
    show build_daily_metric "6758:JP" 8 MetricType.PER ex_snapshot =
      Except.ok ex_metric_b
    simp only [build_daily_metric, hn6, ex_snapshot, ex_metric_b]
    norm_num
  have hstep := process_single_ticker_signal_path ex_env ex_cfg ex_item_b ()
    ex_snapshot ex_metric_b ex_medians_b ex_eval_b
    (by decide) hrowB (by decide) (by decide) (by decide) (by decide)
  have hfmtB : ∃ b, format_signal_message ex_item_b.ticker ex_item_b.name
      ex_state_b ex_state_b.metric_value ex_medians_b.median_1w
      ex_medians_b.median_3m ex_medians_b.median_1y =
      Except.ok { ticker := "6758:JP", category := "超PER割安"
                  condition_key := "PER:1Y+3M+1W", body := b
                  is_strong := true } := by
    show ∃ b, format_signal_message "6758:JP" "B" ex_state_b (some 10)
      (some 20) (some 20) (some 20) = Except.ok
        { ticker := "6758:JP", category := "超PER割安"
          condition_key := "PER:1Y+3M+1W", body := b, is_strong := true }
    rw [format_signal_message, if_neg (by decide), hn6]
    exact ⟨_, rfl⟩
  rcases hfmtB with ⟨b, hfmtB⟩
  have hdispB : dispatch_with_cooldown ex_env ex_cfg.cooldown_hours ex_cfg.now
      ex_cfg.channel ()
      { ticker := "6758:JP", category := "超PER割安"
        condition_key := "PER:1Y+3M+1W", body := b, is_strong := true }
      ex_item_b.ticker ex_state_b.is_strong = ((), Except.ok (1, 0)) := by
    have hcd : evaluate_cooldown ex_cfg.now ex_cfg.cooldown_hours
        ex_item_b.ticker "超PER割安" "PER:1Y+3M+1W" ex_state_b.is_strong [] =
        Except.ok { should_send := true, reason := "送信可" } := by decide
    simp only [dispatch_with_cooldown, ex_env]
    rw [hcd]
    rfl
  have hst : build_signal_state ex_eval_b none none = ex_state_b := by decide
  have hu1 : ∀ (x : Unit) (r : DailyMetric), ex_env.upsert_metric x r = () :=
    fun _ _ => rfl
  have hu2 : ∀ (x : Unit) (r : MetricMedians), ex_env.upsert_medians x r = () :=
    fun _ _ => rfl
  have hu3 : ∀ (x : Unit) (r : SignalState), ex_env.upsert_state x r = () :=
    fun _ _ => rfl
  have hgl : ∀ (x : Unit) (t : String), ex_env.get_latest_state x t = none :=
    fun _ _ => rfl
  have hcond : (decide (ex_state_b.category.getD "" ≠ "") &&
      decide (ex_state_b.combo.getD "" ≠ "")) = true := by decide
  have hB : process_ticker_caught ex_env ex_cfg ex_item_b () =
      ((), { processed_tickers := 1, sent_notifications := 1
             skipped_notifications := 0, errors := 0 }) := by
    simp only [process_ticker_caught, hstep, hu1, hu2, hu3, hgl, hst]
    simp only [hcond, if_true, hfmtB, hdispB]
  -- assemble the run
  rw [run_daily_pipeline, happ]
  simp only [hdispA]
  have hmerge1 : PipelineResult.merge
      { processed_tickers := 0, sent_notifications := 0
        skipped_notifications := 0, errors := 0 }
      { processed_tickers := 1, sent_notifications := 1
        skipped_notifications := 0, errors := 1 } =
      { processed_tickers := 1, sent_notifications := 1
        skipped_notifications := 0, errors := 1 } := by decide
  rw [hmerge1]
  have heligB : (ex_item_b.is_active &&
      is_channel_enabled ex_item_b ex_cfg.channel &&
      should_dispatch_for_timing ex_item_b.notify_timing
        ex_cfg.execution_mode) = true := by decide
  simp [run_daily_pipeline_aux, heligB, hB, PipelineResult.merge]
